import Mathlib

/-!
Verification of the condition-evaluation block in
`src/autogpt_platform/backend/backend/blocks/branching.py`.

The block's `run` method extracts two operands from a JSON-like input value
via key/index addressing (`get_value`), applies one of six comparison
operators through a dispatch table (`comparison_funcs`), and yields the pair
of output channels `("result", _)` and `("output", _)`; comparison failures
inside the `try` block are converted to the pair `(null, null)`.

We embed the dynamic Python values handled by the block as a closed sum
`Value` over null, booleans, integers, strings, sequences and string-keyed
mappings, and embed Python's `==`/`!=`/`<`/`>`/`<=`/`>=` semantics on this
fragment: equality is total (booleans compare numerically with integers,
mappings compare by key set and pointwise values, sequences elementwise);
ordering is defined for number-number, string-string and sequence-sequence
pairs and raises `TypeError` (modelled as `Option.none`) otherwise.

A raised-and-propagating exception is modelled as `Except.error ()`; a value
caught by the block's `except` clause never reaches that constructor because
the corresponding branch of `run` returns the `(null, null)` pair instead.
-/

namespace Branching

/-- Dynamic (JSON-like) Python values reaching the block: `none` is Python's
`None` (also the null/absent marker of the spec), plus booleans, integers,
strings, lists and string-keyed dicts. -/
inductive Value : Type where
  | none : Value
  | bool : Bool → Value
  | int : Int → Value
  | str : String → Value
  | list : List Value → Value
  | dict : List (String × Value) → Value
deriving Repr

/-- First binding of a key in a dict, mirroring Python dict lookup
(dict keys are unique, so first binding is the binding). -/
def dictLookup : List (String × Value) → String → Option Value
  | [], _ => Option.none
  | (k2, v) :: rest, k => if k = k2 then Option.some v else dictLookup rest k

/-- Python `obj.get(key)` on a string-keyed dict: `None` when the key is the
`None` object or missing, the stored value otherwise. -/
def dictGet (d : List (String × Value)) (key : Option String) : Value :=
  match key with
  | Option.none => Value.none
  | Option.some k =>
    match dictLookup d k with
    | Option.some v => v
    | Option.none => Value.none

/-- Python booleans are a numeric subtype: `True` is `1`, `False` is `0`. -/
def bint (b : Bool) : Int := if b then 1 else 0

mutual

/-- Python `==` on the embedded values: total, never raises.  `None` equals
only itself; booleans and integers compare numerically; strings compare as
strings; lists compare elementwise; dicts compare by equal size and every
binding of the left dict present (with `==`-equal value) in the right one;
any other cross-type pair is unequal. -/
def pyEq : Value → Value → Bool
  | Value.none, Value.none => true
  | Value.bool a, Value.bool b => a == b
  | Value.bool a, Value.int b => bint a == b
  | Value.int a, Value.bool b => a == bint b
  | Value.int a, Value.int b => a == b
  | Value.str a, Value.str b => a == b
  | Value.list a, Value.list b => pyEqList a b
  | Value.dict a, Value.dict b => a.length == b.length && pyEqDict a b
  | _, _ => false
termination_by a b => sizeOf a + sizeOf b

/-- Elementwise Python `==` on lists (lengths must agree). -/
def pyEqList : List Value → List Value → Bool
  | [], [] => true
  | x :: xs, y :: ys => pyEq x y && pyEqList xs ys
  | _, _ => false
termination_by a b => sizeOf a + sizeOf b

/-- Every binding of the first dict occurs, with `==`-equal value, in the
second dict. -/
def pyEqDict : List (String × Value) → List (String × Value) → Bool
  | [], _ => true
  | (k, v) :: rest, b => pyFindEq k v b && pyEqDict rest b
termination_by a b => sizeOf a + sizeOf b

/-- Whether the dict binds `k` to a value `==`-equal to `v`. -/
def pyFindEq : String → Value → List (String × Value) → Bool
  | _, _, [] => false
  | k, v, (k2, v2) :: rest => if k = k2 then pyEq v v2 else pyFindEq k v rest
termination_by _ v b => sizeOf v + sizeOf b

end

/-- The four Python ordering comparisons. -/
inductive OrdOp : Type where
  | lt : OrdOp
  | gt : OrdOp
  | le : OrdOp
  | ge : OrdOp
deriving DecidableEq, Repr

/-- Ordering comparison on integers. -/
def ordInt : OrdOp → Int → Int → Bool
  | OrdOp.lt, a, b => decide (a < b)
  | OrdOp.gt, a, b => decide (b < a)
  | OrdOp.le, a, b => decide (a ≤ b)
  | OrdOp.ge, a, b => decide (b ≤ a)

/-- Ordering comparison on natural numbers (used for sequence lengths). -/
def ordNat : OrdOp → Nat → Nat → Bool
  | OrdOp.lt, a, b => decide (a < b)
  | OrdOp.gt, a, b => decide (b < a)
  | OrdOp.le, a, b => decide (a ≤ b)
  | OrdOp.ge, a, b => decide (b ≤ a)

/-- Lexicographic ordering comparison on strings (Python compares code
points; for a total order `a ≤ b` is `¬ b < a`). -/
def ordStr : OrdOp → String → String → Bool
  | OrdOp.lt, a, b => decide (a < b)
  | OrdOp.gt, a, b => decide (b < a)
  | OrdOp.le, a, b => !(decide (b < a))
  | OrdOp.ge, a, b => !(decide (a < b))

mutual

/-- Python ordering (`<`, `>`, `<=`, `>=`) on the embedded values:
number-number (booleans as 0/1), string-string and list-list pairs are
ordered; every other pair (including anything against `None`, and dicts)
raises `TypeError`, modelled as `Option.none`. -/
def pyOrd (op : OrdOp) : Value → Value → Option Bool
  | Value.bool a, Value.bool b => Option.some (ordInt op (bint a) (bint b))
  | Value.bool a, Value.int b => Option.some (ordInt op (bint a) b)
  | Value.int a, Value.bool b => Option.some (ordInt op a (bint b))
  | Value.int a, Value.int b => Option.some (ordInt op a b)
  | Value.str a, Value.str b => Option.some (ordStr op a b)
  | Value.list a, Value.list b => pyOrdList op a b
  | _, _ => Option.none
termination_by a b => sizeOf a + sizeOf b

/-- Python list ordering: skip the longest common `==`-equal prefix, then
order the first differing elements (which may itself raise); if one list is
a prefix of the other, order the lengths. -/
def pyOrdList (op : OrdOp) : List Value → List Value → Option Bool
  | x :: xs, y :: ys =>
    if pyEq x y then pyOrdList op xs ys else pyOrd op x y
  | a, b => Option.some (ordNat op a.length b.length)
termination_by a b => sizeOf a + sizeOf b

end

/-- The six comparison operators of the block (`class ComparisonOperator(Enum)`). -/
inductive ComparisonOperator : Type where
  | EQUAL : ComparisonOperator
  | NOT_EQUAL : ComparisonOperator
  | GREATER_THAN : ComparisonOperator
  | LESS_THAN : ComparisonOperator
  | GREATER_THAN_OR_EQUAL : ComparisonOperator
  | LESS_THAN_OR_EQUAL : ComparisonOperator
deriving DecidableEq, Repr

/-- The comparison a given operator's dispatch entry performs: `Option.none`
models the lambda raising (`TypeError` on an undefined ordering). -/
def pyCompareFun : ComparisonOperator → Value → Value → Option Bool
  | ComparisonOperator.EQUAL => fun a b => Option.some (pyEq a b)
  | ComparisonOperator.NOT_EQUAL => fun a b => Option.some (!pyEq a b)
  | ComparisonOperator.GREATER_THAN => fun a b => pyOrd OrdOp.gt a b
  | ComparisonOperator.LESS_THAN => fun a b => pyOrd OrdOp.lt a b
  | ComparisonOperator.GREATER_THAN_OR_EQUAL => fun a b => pyOrd OrdOp.ge a b
  | ComparisonOperator.LESS_THAN_OR_EQUAL => fun a b => pyOrd OrdOp.le a b

/-- The `comparison_funcs` dict of `run`, an operator-indexed table of
comparison lambdas (Python `a == b`, `a != b`, `a > b`, `a < b`, `a >= b`,
`a <= b`). -/
def comparison_funcs : List (ComparisonOperator × (Value → Value → Option Bool)) :=
  [(ComparisonOperator.EQUAL, fun a b => Option.some (pyEq a b)),
   (ComparisonOperator.NOT_EQUAL, fun a b => Option.some (!pyEq a b)),
   (ComparisonOperator.GREATER_THAN, fun a b => pyOrd OrdOp.gt a b),
   (ComparisonOperator.LESS_THAN, fun a b => pyOrd OrdOp.lt a b),
   (ComparisonOperator.GREATER_THAN_OR_EQUAL, fun a b => pyOrd OrdOp.ge a b),
   (ComparisonOperator.LESS_THAN_OR_EQUAL, fun a b => pyOrd OrdOp.le a b)]

/-- Dict lookup `comparison_funcs[operator]`: `Option.none` models a
`KeyError` (raised inside the `try` block, hence caught). -/
def lookupOp (op : ComparisonOperator) : Option (Value → Value → Option Bool) :=
  (comparison_funcs.find? (fun e => e.1 = op)).map (fun e => e.2)

/-- The fields of `ConditionBlock.Input` that `run` reads.  The `Any`-typed
fields with `default=None` (`yes_value`, `no_value`) are `Value`, with
`Value.none` the unset/default state; the optional key and index fields are
`Option`-typed. -/
structure RunInput : Type where
  input_object : Value
  value1_key : Option String
  value2_key : Option String
  value1_index : Option Int
  value2_index : Option Int
  operator : ComparisonOperator
  yes_value : Value
  no_value : Value
  passthrough : Bool

/-- Python `isinstance(obj, list)`. -/
def isList : Value → Bool
  | Value.list _ => true
  | _ => false

/-- Python `x is None` (identity with the `None` object). -/
def isNone : Value → Bool
  | Value.none => true
  | _ => false

/-- The `elif key is not None:` arm of `get_value` for list inputs, plus the
trailing `return obj` fall-through: `obj[0]` raises `IndexError` on an empty
list (modelled as `Except.error ()`, an exception escaping `get_value`);
otherwise the first element's `.get(key)` when it is a dict, else `None`;
with no key, the fall-through returns the list itself. -/
def listKeyFallback (l : List Value) (key : Option String) : Except Unit Value :=
  match key with
  | Option.some k =>
    match l with
    | [] => Except.error ()
    | x :: _ =>
      match x with
      | Value.dict d => Except.ok (dictGet d (Option.some k))
      | _ => Except.ok Value.none
  | Option.none => Except.ok (Value.list l)

/-- The nested helper `get_value(obj, key, index)` of `run`: dicts answer
`obj.get(key)`; lists answer `obj[index]` when the index is supplied and in
`[0, len)`, else fall to the key arm (`listKeyFallback`); anything else is
returned unchanged. -/
def get_value (obj : Value) (key : Option String) (index : Option Int) : Except Unit Value :=
  match obj with
  | Value.dict d => Except.ok (dictGet d key)
  | Value.list l =>
    match index with
    | Option.some i =>
      if 0 ≤ i ∧ i < (l.length : Int) then Except.ok (l.getD i.toNat Value.none)
      else listKeyFallback l key
    | Option.none => listKeyFallback l key
  | _ => Except.ok obj

/-- Operand resolution in `run`: for a list input `get_value` receives the
caller-supplied index, otherwise `None`. -/
def extractOperand (i : RunInput) (key : Option String) (index : Option Int) : Except Unit Value :=
  if isList i.input_object then get_value i.input_object key index
  else get_value i.input_object key Option.none

/-- The body of `ConditionBlock.run`.  The result is the yielded channel
list `[("result", _), ("output", _)]`; `Except.error ()` is an exception
propagating out of `run` (the two `get_value` calls sit before the `try`
block, so their errors are not caught).  Inside the `try`, a failed dispatch
lookup or a raising comparison lambda reaches the `except` clause, which
yields `("result", None)` then `("output", None)`. -/
def run (i : RunInput) : Except Unit (List (String × Value)) :=
  match extractOperand i i.value1_key i.value1_index with
  | Except.error e => Except.error e
  | Except.ok value1 =>
    match extractOperand i i.value2_key i.value2_index with
    | Except.error e => Except.error e
    | Except.ok value2 =>
      match lookupOp i.operator with
      | Option.none => Except.ok [("result", Value.none), ("output", Value.none)]
      | Option.some f =>
        match f value1 value2 with
        | Option.none => Except.ok [("result", Value.none), ("output", Value.none)]
        | Option.some result =>
          Except.ok [("result", Value.bool result),
            ("output",
              if result then
                (if i.passthrough then i.input_object
                 else (if isNone i.yes_value then value1 else i.yes_value))
              else
                (if i.passthrough then i.input_object
                 else (if isNone i.no_value then value1 else i.no_value)))]

/-- The dispatch dict binds every operator to its comparison lambda. -/
lemma lookupOp_eq (op : ComparisonOperator) : lookupOp op = Option.some (pyCompareFun op) := by
  cases op <;> rfl

/-- Spec Scenario C: `[{"v":1},{"v":2}]`, indices 0 and 1, `EQUAL`, no
overrides, no passthrough. -/
def scenarioC : RunInput :=
  ⟨Value.list [Value.dict [("v", Value.int 1)], Value.dict [("v", Value.int 2)]],
   Option.none, Option.none, Option.some 0, Option.some 1,
   ComparisonOperator.EQUAL, Value.none, Value.none, false⟩

/-- Spec Scenario E: `{"a":"x"}`, keys `"a"` and `"missing"`, `GREATER_THAN`. -/
def scenarioE : RunInput :=
  ⟨Value.dict [("a", Value.str "x")], Option.some "a", Option.some "missing",
   Option.none, Option.none, ComparisonOperator.GREATER_THAN,
   Value.none, Value.none, false⟩

/-- Spec Scenario F: Scenario A's input with `passthrough = true`. -/
def scenarioF : RunInput :=
  ⟨Value.dict [("value1", Value.int 10), ("value2", Value.int 5)],
   Option.some "value1", Option.some "value2", Option.none, Option.none,
   ComparisonOperator.GREATER_THAN, Value.str "Greater", Value.str "Not greater", true⟩

/-- A request whose overrides are falsy but not `None`: scalar input `0`,
`EQUAL`, `yes_value` the empty string, `no_value` the boolean `False`. -/
def falsyOverride : RunInput :=
  ⟨Value.int 0, Option.none, Option.none, Option.none, Option.none,
   ComparisonOperator.EQUAL, Value.str "", Value.bool false, false⟩

/-- An empty sequence input addressed by key: `get_value` evaluates `obj[0]`
on the empty list. -/
def emptyListKeyed : RunInput :=
  ⟨Value.list [], Option.some "a", Option.none, Option.none, Option.none,
   ComparisonOperator.EQUAL, Value.none, Value.none, false⟩

/-- Claim C1, counterexample: on the empty-sequence input addressed by key,
`run` raises (`obj[0]` is evaluated before the `try` block), so an
extraction error propagates out of the evaluator instead of being converted
to the null/null outcome. -/
theorem run_extraction_error_escapes : run emptyListKeyed = Except.error () := rfl

/-- Claim C1 (amended): every evaluation either propagates an extraction
error or produces exactly one of the two terminal outcomes — a boolean
result with an output value, or the null/null failure pair; no other shape
of outcome is possible, and every failure inside the protected comparison
step is converted to the null/null pair. -/
theorem run_terminal_outcomes (i : RunInput) :
    run i = Except.error () ∨
    (∃ b out, run i = Except.ok [("result", Value.bool b), ("output", out)]) ∨
    run i = Except.ok [("result", Value.none), ("output", Value.none)] := by
  cases h1 : extractOperand i i.value1_key i.value1_index with
  | error e =>
    cases e
    exact Or.inl (by simp only [run, h1])
  | ok v1 =>
    cases h2 : extractOperand i i.value2_key i.value2_index with
    | error e =>
      cases e
      exact Or.inl (by simp only [run, h1, h2])
    | ok v2 =>
      cases hc : pyCompareFun i.operator v1 v2 with
      | none =>
        exact Or.inr (Or.inr (by simp only [run, h1, h2, lookupOp_eq, hc]))
      | some b =>
        refine Or.inr (Or.inl ⟨b,
          (if b then
            (if i.passthrough then i.input_object
             else (if isNone i.yes_value then v1 else i.yes_value))
           else
            (if i.passthrough then i.input_object
             else (if isNone i.no_value then v1 else i.no_value))), ?_⟩)
        simp only [run, h1, h2, lookupOp_eq, hc]

/-- Claim C2, counterexample: extracting an absent key from the mapping
`{"a": "x"}` yields the null/absent marker (`obj.get(key)` semantics), not
the mapping itself unchanged as claimed. -/
theorem get_value_missing_key_is_null :
    get_value (Value.dict [("a", Value.str "x")]) (Option.some "missing") Option.none =
      Except.ok Value.none ∧
    Value.none ≠ Value.dict [("a", Value.str "x")] :=
  ⟨rfl, fun h => Value.noConfusion h⟩

/-- Claim C2 (amended): for a mapping input, extraction returns the value
stored under the key when the key is present; when the key is absent — not
provided, or not a key of the mapping — it returns the null/absent marker
(not the mapping itself). -/
theorem get_value_dict_cases (d : List (String × Value)) (k : String) :
    (∀ v, dictLookup d k = Option.some v →
      get_value (Value.dict d) (Option.some k) Option.none = Except.ok v) ∧
    (dictLookup d k = Option.none →
      get_value (Value.dict d) (Option.some k) Option.none = Except.ok Value.none) ∧
    get_value (Value.dict d) Option.none Option.none = Except.ok Value.none := by
  refine ⟨fun v hv => ?_, fun hv => ?_, rfl⟩ <;> simp [get_value, dictGet, hv]

/-- Claim C2, witness: the key `"a"` stored with value `1` is extracted. -/
theorem get_value_dict_cases_witness :
    get_value (Value.dict [("a", Value.int 1)]) (Option.some "a") Option.none =
      Except.ok (Value.int 1) :=
  (get_value_dict_cases [("a", Value.int 1)] "a").1 (Value.int 1) rfl

/-- Claim C3, counterexample: on the sequence `[1]` with no index and no
key, `get_value` falls through to `return obj` and yields the sequence
itself, not the null/absent marker the claim states. -/
theorem get_value_list_no_addressing_returns_list :
    get_value (Value.list [Value.int 1]) Option.none Option.none =
      Except.ok (Value.list [Value.int 1]) ∧
    Value.list [Value.int 1] ≠ Value.none :=
  ⟨rfl, fun h => Value.noConfusion h⟩

/-- Claim C3 (amended): for a sequence input where the index is absent or
outside `[0, length)` and the key is absent, extraction returns the
sequence itself unchanged (the trailing `return obj` fall-through) — not an
error, and not the null/absent marker. -/
theorem get_value_list_unusable_addressing (l : List Value) (index : Option Int)
    (h : ∀ j, index = Option.some j → ¬(0 ≤ j ∧ j < (l.length : Int))) :
    get_value (Value.list l) Option.none index = Except.ok (Value.list l) := by
  cases index with
  | none => rfl
  | some j =>
    simp only [get_value]
    rw [if_neg (h j rfl)]
    rfl

/-- Claim C3, witness: index 5 on the one-element sequence `[1]`, no key. -/
theorem get_value_list_unusable_addressing_witness :
    get_value (Value.list [Value.int 1]) Option.none (Option.some 5) =
      Except.ok (Value.list [Value.int 1]) :=
  get_value_list_unusable_addressing [Value.int 1] (Option.some 5)
    (fun j hj => by cases hj; decide)

/-- Claim C4: whenever the comparison step fails on the two resolved
operands, `run` emits `result = null` then `output = null`, with no
exception escaping. -/
theorem run_comparison_failure_yields_null_null (i : RunInput) (v1 v2 : Value)
    (h1 : extractOperand i i.value1_key i.value1_index = Except.ok v1)
    (h2 : extractOperand i i.value2_key i.value2_index = Except.ok v2)
    (hc : pyCompareFun i.operator v1 v2 = Option.none) :
    run i = Except.ok [("result", Value.none), ("output", Value.none)] := by
  simp only [run, h1, h2, lookupOp_eq, hc]

/-- Claim C4, witness (spec Scenario E): mapping `{"a": "x"}`, keys `"a"`
and `"missing"`, `GREATER_THAN` — the ordering comparison of `"x"` against
the null marker fails, so both channels carry null. -/
theorem run_comparison_failure_yields_null_null_witness :
    run scenarioE = Except.ok [("result", Value.none), ("output", Value.none)] :=
  run_comparison_failure_yields_null_null scenarioE (Value.str "x") Value.none
    rfl rfl (by simp [scenarioE, pyCompareFun, pyOrd])

/-- Claim C5: with `passthrough = true` and a succeeding comparison, the
output channel carries the entire original input value whatever the boolean
result is, ignoring `yes_value` and `no_value`. -/
theorem run_passthrough_outputs_input (i : RunInput) (v1 v2 : Value) (b : Bool)
    (hp : i.passthrough = true)
    (h1 : extractOperand i i.value1_key i.value1_index = Except.ok v1)
    (h2 : extractOperand i i.value2_key i.value2_index = Except.ok v2)
    (hc : pyCompareFun i.operator v1 v2 = Option.some b) :
    run i = Except.ok [("result", Value.bool b), ("output", i.input_object)] := by
  cases b <;> simp [run, h1, h2, lookupOp_eq, hc, hp]

/-- Claim C5, witness (spec Scenario F): Scenario A's input with
`passthrough = true` gives `result = true` and the whole input object as
output, not the `"Greater"` override. -/
theorem run_passthrough_outputs_input_witness :
    run scenarioF = Except.ok [("result", Value.bool true),
      ("output", Value.dict [("value1", Value.int 10), ("value2", Value.int 5)])] :=
  run_passthrough_outputs_input scenarioF (Value.int 10) (Value.int 5) true
    rfl rfl rfl (by simp [scenarioF, pyCompareFun, pyOrd, ordInt])

/-- Claim C6: with `passthrough = false` and a succeeding comparison, a true
outcome outputs `yes_value` when it is non-null and otherwise the first
extracted operand `value1` (not the whole input); a false outcome outputs
`no_value` when it is non-null and otherwise `value1`. -/
theorem run_output_selection (i : RunInput) (v1 v2 : Value) (b : Bool)
    (hp : i.passthrough = false)
    (h1 : extractOperand i i.value1_key i.value1_index = Except.ok v1)
    (h2 : extractOperand i i.value2_key i.value2_index = Except.ok v2)
    (hc : pyCompareFun i.operator v1 v2 = Option.some b) :
    (b = true → isNone i.yes_value = false →
      run i = Except.ok [("result", Value.bool true), ("output", i.yes_value)]) ∧
    (b = true → isNone i.yes_value = true →
      run i = Except.ok [("result", Value.bool true), ("output", v1)]) ∧
    (b = false → isNone i.no_value = false →
      run i = Except.ok [("result", Value.bool false), ("output", i.no_value)]) ∧
    (b = false → isNone i.no_value = true →
      run i = Except.ok [("result", Value.bool false), ("output", v1)]) := by
  refine ⟨?_, ?_, ?_, ?_⟩ <;> intro hb hx <;> subst hb <;>
    simp [run, h1, h2, lookupOp_eq, hc, hp, hx]

/-- Claim C6, witness (spec Scenario C): `[{"v":1},{"v":2}]` at indices 0
and 1 under `EQUAL` with no overrides gives `result = false` and outputs
`value1 = {"v":1}`. -/
theorem run_output_selection_witness :
    run scenarioC = Except.ok [("result", Value.bool false),
      ("output", Value.dict [("v", Value.int 1)])] :=
  (run_output_selection scenarioC
      (Value.dict [("v", Value.int 1)]) (Value.dict [("v", Value.int 2)]) false
      rfl rfl rfl
      (by simp [scenarioC, pyCompareFun, pyEq, pyEqDict, pyFindEq])).2.2.2 rfl rfl

/-- A request with the same falsy non-null overrides as `falsyOverride` but
a false outcome: scalar input `0` under `NOT_EQUAL`, so `no_value` — the
boolean `False` — is the override the false branch consults. -/
def falsyOverrideNo : RunInput :=
  ⟨Value.int 0, Option.none, Option.none, Option.none, Option.none,
   ComparisonOperator.NOT_EQUAL, Value.str "", Value.bool false, false⟩

/-- Claim C7: an override that is falsy but not null (empty string, zero,
`False`) is honored as the output on the corresponding outcome —
`yes_value` on a true outcome, `no_value` on a false outcome; only an
exactly-null override is treated as unset and falls back to `value1`. -/
theorem run_override_null_check_only (i : RunInput) (v1 v2 : Value) (b : Bool)
    (hp : i.passthrough = false)
    (h1 : extractOperand i i.value1_key i.value1_index = Except.ok v1)
    (h2 : extractOperand i i.value2_key i.value2_index = Except.ok v2)
    (hc : pyCompareFun i.operator v1 v2 = Option.some b) :
    (b = true → isNone i.yes_value = false →
      run i = Except.ok [("result", Value.bool true), ("output", i.yes_value)]) ∧
    (b = true → i.yes_value = Value.none →
      run i = Except.ok [("result", Value.bool true), ("output", v1)]) ∧
    (b = false → isNone i.no_value = false →
      run i = Except.ok [("result", Value.bool false), ("output", i.no_value)]) ∧
    (b = false → i.no_value = Value.none →
      run i = Except.ok [("result", Value.bool false), ("output", v1)]) := by
  refine ⟨?_, ?_, ?_, ?_⟩
  · intro hb hy
    subst hb
    simp [run, h1, h2, lookupOp_eq, hc, hp, hy]
  · intro hb hy
    subst hb
    simp [run, h1, h2, lookupOp_eq, hc, hp, hy, isNone]
  · intro hb hn
    subst hb
    simp [run, h1, h2, lookupOp_eq, hc, hp, hn]
  · intro hb hn
    subst hb
    simp [run, h1, h2, lookupOp_eq, hc, hp, hn, isNone]

/-- Claim C7, witness: scalar input `0` with `yes_value` the empty string
and `no_value` the boolean `False` — both falsy but non-null.  Under
`EQUAL` the outcome is true and the empty string is output; under
`NOT_EQUAL` the outcome is false and `False` is output; neither falls back
to `value1`. -/
theorem run_override_null_check_only_witness :
    (run falsyOverride =
      Except.ok [("result", Value.bool true), ("output", Value.str "")]) ∧
    (run falsyOverrideNo =
      Except.ok [("result", Value.bool false), ("output", Value.bool false)]) :=
  ⟨(run_override_null_check_only falsyOverride (Value.int 0) (Value.int 0) true
      rfl rfl rfl (by simp [falsyOverride, pyCompareFun, pyEq])).1 rfl rfl,
   (run_override_null_check_only falsyOverrideNo (Value.int 0) (Value.int 0) false
      rfl rfl rfl (by simp [falsyOverrideNo, pyCompareFun, pyEq])).2.2.1 rfl rfl⟩

/-- Claim C8: `NOT_EQUAL` is the pointwise logical negation of `EQUAL`;
both are total (never fail) on every pair of values; the null/absent marker
equals itself and is unequal to every non-null value. -/
theorem equal_not_equal_complement :
    (∀ a b : Value, (pyCompareFun ComparisonOperator.EQUAL a b).isSome = true ∧
      (pyCompareFun ComparisonOperator.NOT_EQUAL a b).isSome = true) ∧
    (∀ a b : Value, pyCompareFun ComparisonOperator.NOT_EQUAL a b =
      (pyCompareFun ComparisonOperator.EQUAL a b).map (fun x => !x)) ∧
    pyEq Value.none Value.none = true ∧
    (∀ b : Value, b ≠ Value.none → pyEq Value.none b = false ∧ pyEq b Value.none = false) := by
  refine ⟨fun a b => ⟨rfl, rfl⟩, fun a b => rfl, by simp [pyEq], fun b hb => ?_⟩
  cases b with
  | none => exact absurd rfl hb
  | bool x => exact ⟨by simp [pyEq], by simp [pyEq]⟩
  | int x => exact ⟨by simp [pyEq], by simp [pyEq]⟩
  | str x => exact ⟨by simp [pyEq], by simp [pyEq]⟩
  | list x => exact ⟨by simp [pyEq], by simp [pyEq]⟩
  | dict x => exact ⟨by simp [pyEq], by simp [pyEq]⟩

/-- Claim C8, witness: `1` and the null marker are unequal in both orders. -/
theorem equal_not_equal_complement_witness :
    pyEq Value.none (Value.int 1) = false ∧ pyEq (Value.int 1) Value.none = false :=
  equal_not_equal_complement.2.2.2 (Value.int 1) (fun h => Value.noConfusion h)

/-- Claim C9: the dispatch table has an entry for each of the six operators
— the lookup itself never fails, so a failure inside the `try` block can
only come from applying the found comparison lambda to the operands. -/
theorem dispatch_covers_all_operators (op : ComparisonOperator) :
    lookupOp op = Option.some (pyCompareFun op) := by
  cases op <;> rfl

/-- Claim C10: a mapping that stores the null value under a key and a
mapping that lacks the key extract to the very same null/absent marker, so
the two cases are indistinguishable downstream. -/
theorem stored_null_equals_missing_key (d1 d2 : List (String × Value)) (k : String)
    (index : Option Int)
    (h1 : dictLookup d1 k = Option.some Value.none)
    (h2 : dictLookup d2 k = Option.none) :
    get_value (Value.dict d1) (Option.some k) index = Except.ok Value.none ∧
    get_value (Value.dict d1) (Option.some k) index =
      get_value (Value.dict d2) (Option.some k) index := by
  have e1 : get_value (Value.dict d1) (Option.some k) index = Except.ok Value.none := by
    simp [get_value, dictGet, h1]
  have e2 : get_value (Value.dict d2) (Option.some k) index = Except.ok Value.none := by
    simp [get_value, dictGet, h2]
  exact ⟨e1, e1.trans e2.symm⟩

/-- Claim C10, witness: `{"k": null}` and `{}` both extract `null` at `"k"`. -/
theorem stored_null_equals_missing_key_witness :
    get_value (Value.dict [("k", Value.none)]) (Option.some "k") Option.none =
      Except.ok Value.none ∧
    get_value (Value.dict [("k", Value.none)]) (Option.some "k") Option.none =
      get_value (Value.dict []) (Option.some "k") Option.none :=
  stored_null_equals_missing_key [("k", Value.none)] [] "k" Option.none rfl rfl

end Branching
